import Mathlib

/-!
Shallow embedding of `getting_started/examples/eval_gr00t_so100.py`.

The script drives a SO100 robot arm from a remote inference client.  We embed
the pure computations (array slicing, concatenation, grid layout, the motor
index map) as Lean functions on `List ℚ` (numpy/torch float values are modelled
as exact rationals: every literal in the script is exactly representable and no
arithmetic is performed on them, so the float32/float64 casts are
value-preserving), and the stateful/effectful parts (connect, disconnect, the
main execution loop) as explicit state passing plus event traces.
-/

/-- Values stored in robot state/action arrays.  The script only moves them
around (slicing, concatenation, repetition), so exact rationals are a faithful
model of the float entries. -/
abbrev Val := ℚ

/-! ### Motor-bus registers and write events

`set_so100_robot_preset` writes named registers on a motor bus; we model the
register names as an inductive type and a bus write as an event recording the
arm, the register and the integer value written. -/

/-- Register names written by the script (keys of the Feetech/Dynamixel motor
bus tables used in `set_so100_robot_preset`, `enable` and `disable`). -/
inductive Register where
  | mode
  | p_coefficient
  | i_coefficient
  | d_coefficient
  | lock
  | maximum_acceleration
  | acceleration
  | torque_enable
deriving DecidableEq, Repr

/-- Effects on the hardware performed while connecting: the underlying
`robot.connect()` call, a register write on one arm's bus, and the
`Present_Position` read that is printed. -/
inductive WriteEv where
  | busConnect
  | write (arm : String) (reg : Register) (value : Int)
  | readPresent (arm : String)
deriving DecidableEq, Repr

/-- Register writes performed by `SO100Robot.set_so100_robot_preset` on one
arm's motor bus, in program order. -/
def set_so100_robot_preset (arm : String) : List WriteEv :=
  [WriteEv.write arm Register.mode 0,
   WriteEv.write arm Register.p_coefficient 10,
   WriteEv.write arm Register.i_coefficient 0,
   WriteEv.write arm Register.d_coefficient 32,
   WriteEv.write arm Register.lock 0,
   WriteEv.write arm Register.maximum_acceleration 254,
   WriteEv.write arm Register.acceleration 254]

/-! ### Robot data model -/

/-- Entry of the `motor_indices` map built in `SO100Robot.__init__`.  The
Python dict keys are `start`, `end` and `motor_names`; `end` is a Lean keyword
so the field is named `stop`. -/
structure MotorIndexEntry where
  start : Nat
  stop : Nat
  motor_names : List String
deriving DecidableEq, Repr

/-- The loop in `SO100Robot.__init__` that builds `motor_indices`: it walks the
follower arms in order, keeping a running `start_idx`. -/
def buildMotorIndices : List (String × List String) → Nat → List (String × MotorIndexEntry)
  | [], _ => []
  | (arm_name, motor_names) :: rest, start_idx =>
      (arm_name,
        { start := start_idx
          stop := start_idx + motor_names.length
          motor_names := motor_names }) :: buildMotorIndices rest (start_idx + motor_names.length)

/-- Configuration object (`So100RobotConfig`): the script only reads and
mutates its `cameras` field and passes `calibration_dir` through. -/
structure So100RobotConfig where
  calibration_dir : String
  cameras : List String
deriving DecidableEq, Repr

/-- The slice of the third-party `ManipulatorRobot` object that the script
touches: its camera map (keys only; frames are read through an observation
function), its follower/leader arms (name and motor names) and the
`is_connected` flag. -/
structure ManipulatorRobot where
  cameras : List String
  follower_arms : List (String × List String)
  leader_arms : List (String × List String)
  is_connected : Bool
deriving DecidableEq, Repr

/-- Third-party constructor `make_robot_from_config`: builds the robot object
with the camera devices listed in the configuration (one device per configured
camera) and the arms of the SO100 topology; it starts disconnected.  The arms
are parameters because they come from the external library, not this script. -/
def make_robot_from_config (config : So100RobotConfig)
    (followers leaders : List (String × List String)) : ManipulatorRobot :=
  { cameras := config.cameras
    follower_arms := followers
    leader_arms := leaders
    is_connected := false }

/-- State of the script's `SO100Robot` wrapper after `__init__`. -/
structure SO100Robot where
  config : So100RobotConfig
  enable_camera : Bool
  robot : ManipulatorRobot
  follower_arms : List (String × List String)
  leader_arms : List (String × List String)
  motor_indices : List (String × MotorIndexEntry)
deriving DecidableEq, Repr

/-- `SO100Robot.__init__(enable_camera)`: stores the config, empties
`config.cameras` when `enable_camera` is false (before the robot object is
built), builds the robot from the config, and builds the motor index map from
the follower arms with a running start index beginning at 0.
`default_cameras` is the camera map of the stock `So100RobotConfig`;
`calibration_path` models the hard-coded calibration directory (the
`os.path.exists` check is a filesystem effect outside the model). -/
def SO100Robot.init (enable_camera : Bool) (calibration_path : String)
    (default_cameras : List String)
    (followers leaders : List (String × List String)) : SO100Robot :=
  let config0 : So100RobotConfig :=
    { calibration_dir := calibration_path, cameras := default_cameras }
  let config := if enable_camera then config0 else { config0 with cameras := [] }
  let robot := make_robot_from_config config followers leaders
  { config := config
    enable_camera := enable_camera
    robot := robot
    follower_arms := robot.follower_arms
    leader_arms := robot.leader_arms
    motor_indices := buildMotorIndices robot.follower_arms 0 }

/-! ### Camera images -/

/-- An image is a height-indexed list of rows of pixels, each pixel a list of
channel values. -/
abbrev Img := List (List (List Nat))

/-- `cv2.cvtColor(img, cv2.COLOR_BGR2RGB)`: reverses the channel order of
every pixel. -/
def cvtColor_BGR2RGB (img : Img) : Img :=
  img.map (fun row => row.map List.reverse)

/-- `SO100Robot.get_current_img(camera_name)`: when the camera exists in the
robot's camera map, reads its frame from the observation and converts BGR to
RGB; otherwise prints a warning and returns `None`.  `obs` gives the raw frame
captured for each camera name. -/
def SO100Robot.get_current_img (r : SO100Robot) (obs : String → Img)
    (camera_name : String) : Option Img :=
  if camera_name ∈ r.robot.cameras then
    some (cvtColor_BGR2RGB (obs camera_name))
  else
    none

/-- `SO100Robot.get_all_camera_images()`: one entry per camera in the robot's
camera map, in order. -/
def SO100Robot.get_all_camera_images (r : SO100Robot) (obs : String → Img) :
    List (String × Option Img) :=
  r.robot.cameras.map (fun cam_name => (cam_name, r.get_current_img obs cam_name))

/-! ### Poses sent by `move_to_initial_pose` and `go_home` -/

/-- `torch.Tensor.repeat(k)` on a 1-D tensor: tile the tensor `k` times. -/
def tensorRepeat (xs : List Val) (k : Nat) : List Val :=
  (List.replicate k xs).flatten

/-- The hard-coded 6-element pose assigned to `current_state` inside
`move_to_initial_pose` (overwriting the captured observation). -/
def initialPose : List Val :=
  [0.0000, 183.6914, 162.5098, 60.1953, -3.2520, -1.0989]

/-- The hard-coded 6-element pose used by `go_home`. -/
def homePose : List Val :=
  [0.0000, 183.6914, 162.5098, 100.1953, -3.2520, -1.0989]

/-- The tensor `SO100Robot.move_to_initial_pose` passes to
`robot.send_action`: the method captures the current observation state and
clones it into `target_state`, but then rebinds `current_state` to the
hard-coded pose, repeats it once per follower arm and sends that. -/
def move_to_initial_pose_sent (captured_state : List Val)
    (num_follower_arms : Nat) : List Val :=
  let _target_state := captured_state
  let current_state := initialPose
  tensorRepeat current_state num_follower_arms

/-- The tensor `SO100Robot.go_home` passes to `set_target_state`: the home
pose repeated once per follower arm. -/
def go_home_sent (num_follower_arms : Nat) : List Val :=
  tensorRepeat homePose num_follower_arms

/-! ### `view_imgs` grid layout -/

/-- Number of subplot columns chosen by `view_imgs`: `min(3, num_imgs)`. -/
def view_imgs_cols (num_imgs : Nat) : Nat := min 3 num_imgs

/-- Number of subplot rows chosen by `view_imgs`:
`(num_imgs + cols - 1) // cols`. -/
def view_imgs_rows (num_imgs : Nat) : Nat :=
  (num_imgs + view_imgs_cols num_imgs - 1) / view_imgs_cols num_imgs

/-- The (rows, cols) grid used by `view_imgs` for `n` images. -/
def view_imgs_grid (num_imgs : Nat) : Nat × Nat :=
  (view_imgs_rows num_imgs, view_imgs_cols num_imgs)

/-- Conversion applied by `view_imgs` when the argument is a dict:
`imgs = [img for img in imgs.values()]`. -/
def dictValues {α : Type} (d : List (String × α)) : List α :=
  d.map Prod.snd

/-- The grid `view_imgs` uses when it is handed a dict: it first converts the
dict to the list of its values, then lays that list out. -/
def view_imgs_grid_of_dict {α : Type} (d : List (String × α)) : Nat × Nat :=
  view_imgs_grid (dictValues d).length

/-! ### The inference client's observation dictionary -/

/-- The three camera frames the main loop passes to
`CustomGr00tRobotInferenceClient.get_action` (keys `webcam`, `main`, `cv` of
the `imgs` dict).  The image type is abstract: the client only wraps each
frame in a batch dimension. -/
structure CamImages (Image : Type) where
  webcam : Image
  main : Image
  cv : Image

/-- `.astype(np.float64)` on a state slice: the captured state entries are
float32 values, and widening float32 to float64 is exact, so on our exact
rationals the cast is the identity on every entry. -/
def astype_float64 (xs : List Val) : List Val := xs

/-- The observation dictionary built by
`CustomGr00tRobotInferenceClient.get_action`.  Keys are modelled as fields
(`video.webcam` becomes `video_webcam`, and so on); each `video` field and
each `state` field carries a leading batch dimension (`np.newaxis`) modelled
as an outer list. -/
structure CustomObsDict (Image : Type) where
  video_webcam : List Image
  video_main : List Image
  video_cv : List Image
  state_main_arm : List (List Val)
  state_main_gripper : List (List Val)
  state_cv_arm : List (List Val)
  state_cv_gripper : List (List Val)
  task_description : List String

/-- `CustomGr00tRobotInferenceClient.get_action(imgs, state)` up to the point
where the dictionary is handed to the remote policy: each image gets a batch
axis, and the 12-element state is sliced as `state[:5]`, `state[5:6]`,
`state[6:11]`, `state[11:12]`, cast to float64 and given a batch axis. -/
def customGetActionObs {Image : Type} (language_instruction : String)
    (imgs : CamImages Image) (state : List Val) : CustomObsDict Image :=
  { video_webcam := [imgs.webcam]
    video_main := [imgs.main]
    video_cv := [imgs.cv]
    state_main_arm := [astype_float64 (state.take 5)]
    state_main_gripper := [astype_float64 ((state.drop 5).take 1)]
    state_cv_arm := [astype_float64 ((state.drop 6).take 5)]
    state_cv_gripper := [astype_float64 ((state.drop 11).take 1)]
    task_description := [language_instruction] }

/-! ### Concatenating one step of the action chunk -/

/-- The action dictionary returned by the policy, restricted to the four keys
in `MODALITY_KEYS`; each field maps a step index to the per-step array. -/
structure ActionChunk where
  main_arm : Nat → List Val
  main_gripper : Nat → List Val
  cv_arm : Nat → List Val
  cv_gripper : Nat → List Val

/-- `np.atleast_1d` on a per-step slice: the slices are already 1-D arrays in
our list model, so it is the identity. -/
def atleast_1d (xs : List Val) : List Val := xs

/-- `concat_action` computed in the inner loop of `__main__`:
`np.concatenate([np.atleast_1d(action[key][i]) for key in MODALITY_KEYS])`
with `MODALITY_KEYS = [main_arm, main_gripper, cv_arm, cv_gripper]`. -/
def concat_action (action : ActionChunk) (i : Nat) : List Val :=
  atleast_1d (action.main_arm i) ++ atleast_1d (action.main_gripper i) ++
    atleast_1d (action.cv_arm i) ++ atleast_1d (action.cv_gripper i)

/-- The assertion guarding the inner loop:
`assert concat_action.shape == (12,)`. -/
def concat_action_assert_holds (action : ActionChunk) (i : Nat) : Prop :=
  (concat_action action i).length = 12

/-! ### Connect and disconnect -/

/-- Errors the wrapper can raise; `connect` raises
`RobotDeviceAlreadyConnectedError` on a second call. -/
inductive RobotError where
  | deviceAlreadyConnected
deriving DecidableEq, Repr

/-- `SO100Robot.connect()`: when the underlying robot is already connected it
raises `RobotDeviceAlreadyConnectedError` (and performs no bus effects,
returned as the empty event list); otherwise it connects the robot, applies
the preset to every follower arm (reading `Present_Position` after each), and
sets `is_connected` to true. -/
def SO100Robot.connect (r : SO100Robot) :
    Except RobotError SO100Robot × List WriteEv :=
  if r.robot.is_connected then
    (Except.error RobotError.deviceAlreadyConnected, [])
  else
    (Except.ok { r with robot := { r.robot with is_connected := true } },
     WriteEv.busConnect ::
       (r.follower_arms.map
         (fun a => set_so100_robot_preset a.1 ++ [WriteEv.readPresent a.1])).flatten)

/-- `SO100Robot.disconnect()`: the whole body is wrapped in
`try ... except Exception`, so no exception escapes.  When the robot is not
connected the guarded body does nothing; otherwise it disables torque and
disconnects, and the inner calls may themselves raise (modelled by the
`inner` parameter, covering `disable`/`robot.disconnect`), in which case the
exception is caught and the state is left as `inner` left it.  The codomain
still allows an error so that "never raises" is a theorem, not a typing
artifact. -/
def SO100Robot.disconnect (inner : SO100Robot → Except RobotError SO100Robot)
    (r : SO100Robot) : Except RobotError SO100Robot :=
  if r.robot.is_connected then
    match inner r with
    | Except.ok r' =>
        Except.ok { r' with robot := { r'.robot with is_connected := false } }
    | Except.error _ => Except.ok r
  else
    Except.ok r

/-! ### The `activate` context manager and the main loop, as traces -/

/-- The calls `SO100Robot.activate` makes, in order. -/
inductive ActivateCall where
  | connectCall
  | moveToInitialPoseCall
  | bodyCall
  | disconnectCall
deriving DecidableEq, Repr

/-- Trace of `with robot.activate(): body`: the context manager runs
`connect()` then `move_to_initial_pose()` then the body inside a
`try`/`finally` whose `finally` clause calls `disconnect()`.  The three flags
say whether the corresponding call returns normally; a raising call ends the
`try` block but the `finally` clause still runs. -/
def activateCalls (connect_ok move_ok body_ok : Bool) : List ActivateCall :=
  if connect_ok = false then
    [ActivateCall.connectCall, ActivateCall.disconnectCall]
  else if move_ok = false then
    [ActivateCall.connectCall, ActivateCall.moveToInitialPoseCall,
     ActivateCall.disconnectCall]
  else if body_ok = false then
    [ActivateCall.connectCall, ActivateCall.moveToInitialPoseCall,
     ActivateCall.bodyCall, ActivateCall.disconnectCall]
  else
    [ActivateCall.connectCall, ActivateCall.moveToInitialPoseCall,
     ActivateCall.bodyCall, ActivateCall.disconnectCall]

/-- Observable steps of one iteration of the main `for` loop in `__main__`.
`readImages` is `robot.get_all_camera_images()`, `display` is `view_imgs`,
`readState` is `robot.get_current_state()`, `requestAction` is
`client.get_action(imgs, state)`, `sendAction` is
`robot.set_target_state(...)`, `sleepFor q` is `time.sleep(q)` (seconds), and
`logData` is the `rr.log` block recording joint positions and actions. -/
inductive Ev where
  | readImages
  | display
  | readState
  | requestAction
  | sendAction
  | sleepFor (seconds : ℚ)
  | logData
deriving DecidableEq, Repr

/-- One pass of the inner loop `for i in range(ACTION_HORIZON)`: send the
concatenated action, sleep 0.01 s, read and display the realtime images, read
the state, and log joint positions and actions to rerun. -/
def innerStepTrace : List Ev :=
  [Ev.sendAction, Ev.sleepFor 0.01, Ev.readImages, Ev.display, Ev.readState,
   Ev.logData]

/-- The inner loop repeated `h` times. -/
def innerTrace : Nat → List Ev
  | 0 => []
  | h + 1 => innerStepTrace ++ innerTrace h

/-- Trace of one iteration of the outer loop
`for i in tqdm(range(ACTIONS_TO_EXECUTE))` with action horizon `h`: read all
camera images, display them, read the current state, request an action from
the client, then run the inner loop `h` times. -/
def mainIterTrace (h : Nat) : List Ev :=
  [Ev.readImages, Ev.display, Ev.readState, Ev.requestAction] ++ innerTrace h

/-- The ordering asserted by the claim about the main loop: every
display/log step of the iteration comes after every sensor-read, every
action-request and every actuator-send step. -/
def claimedMainLoopOrder (tr : List Ev) : Prop :=
  ∀ i j : Nat,
    (tr[i]? = some Ev.display ∨ tr[i]? = some Ev.logData) →
    (tr[j]? = some Ev.readState ∨ tr[j]? = some Ev.requestAction ∨
      tr[j]? = some Ev.sendAction) →
    j < i

/-! ## Helper lemmas -/

/-- Tiling a list `k` times multiplies its length by `k`. -/
theorem tensorRepeat_length (xs : List Val) (k : Nat) :
    (tensorRepeat xs k).length = k * xs.length := by
  induction k with
  | zero => simp [tensorRepeat]
  | succ n ih =>
      simp only [tensorRepeat, List.replicate_succ, List.flatten_cons,
        List.length_append] at ih ⊢
      rw [Nat.succ_mul]
      omega

/-- A list of positive length is a cons. -/
theorem exists_cons_of_length_pos {α : Type} (l : List α) (h : 0 < l.length) :
    ∃ a t, l = a :: t := by
  cases l with
  | nil => simp at h
  | cons a t => exact ⟨a, t, rfl⟩

/-! ## Claims -/

/-- C3: whenever the four modality entries of the action dictionary have
per-step widths 5, 1, 5 and 1, their concatenation at any step index has
exactly 12 entries, so the `assert concat_action.shape == (12,)` in the inner
loop holds. -/
theorem concat_action_shape (action : ActionChunk) (i : Nat)
    (h1 : (action.main_arm i).length = 5)
    (h2 : (action.main_gripper i).length = 1)
    (h3 : (action.cv_arm i).length = 5)
    (h4 : (action.cv_gripper i).length = 1) :
    concat_action_assert_holds action i := by
  simp [concat_action_assert_holds, concat_action, atleast_1d, h1, h2, h3, h4]

/-- A sample action chunk with the widths produced by the GR00T policy head
for this robot topology. -/
def sampleChunk : ActionChunk :=
  { main_arm := fun _ => [1, 2, 3, 4, 5]
    main_gripper := fun _ => [6]
    cv_arm := fun _ => [7, 8, 9, 10, 11]
    cv_gripper := fun _ => [12] }

/-- Witness for C3 at a concrete action chunk and step index 0. -/
theorem concat_action_shape_witness : concat_action_assert_holds sampleChunk 0 :=
  concat_action_shape sampleChunk 0 rfl rfl rfl rfl

/-- C6: for at least one image, `view_imgs` uses `min 3 n` columns (so never
more than 3), the grid has enough cells for all images, and a dict argument
is laid out by the list of its values (same number of images as dict
entries). -/
theorem view_imgs_grid_covers (n : Nat) (hn : 1 ≤ n) :
    view_imgs_cols n = min 3 n ∧
    view_imgs_cols n ≤ 3 ∧
    n ≤ view_imgs_rows n * view_imgs_cols n ∧
    (∀ (α : Type) (d : List (String × α)),
      view_imgs_grid_of_dict d = view_imgs_grid d.length) := by
  refine ⟨rfl, by simp [view_imgs_cols], ?_, ?_⟩
  · rcases le_or_lt n 3 with h3 | h3
    · interval_cases n <;> decide
    · have hc : view_imgs_cols n = 3 := by
        simp only [view_imgs_cols]
        omega
      simp only [view_imgs_rows, hc]
      omega
  · intro α d
    simp [view_imgs_grid_of_dict, dictValues]

/-- Witness for C6 at five images: two rows of three columns. -/
theorem view_imgs_grid_covers_witness :
    view_imgs_cols 5 ≤ 3 ∧ 5 ≤ view_imgs_rows 5 * view_imgs_cols 5 :=
  ⟨(view_imgs_grid_covers 5 (by decide)).2.1,
   (view_imgs_grid_covers 5 (by decide)).2.2.1⟩

/-- C7: the tensors sent by `move_to_initial_pose` and `go_home` are the fixed
6-element poses tiled once per follower arm, hence of length `6 * k` for `k`
follower arms, and the tensor `move_to_initial_pose` sends is the hard-coded
pose, independent of the captured observation state. -/
theorem move_and_home_pose_shape (captured_state : List Val) (k : Nat) :
    (move_to_initial_pose_sent captured_state k).length = 6 * k ∧
    (go_home_sent k).length = 6 * k ∧
    move_to_initial_pose_sent captured_state k = tensorRepeat initialPose k ∧
    (∀ other_state : List Val,
      move_to_initial_pose_sent captured_state k =
        move_to_initial_pose_sent other_state k) := by
  refine ⟨?_, ?_, rfl, fun _ => rfl⟩
  · have h := tensorRepeat_length initialPose k
    have h6 : initialPose.length = 6 := rfl
    rw [h6] at h
    show (tensorRepeat initialPose k).length = 6 * k
    omega
  · have h := tensorRepeat_length homePose k
    have h6 : homePose.length = 6 := rfl
    rw [h6] at h
    show (tensorRepeat homePose k).length = 6 * k
    omega

/-- C2: on any 12-element state, the observation dictionary built by
`CustomGr00tRobotInferenceClient.get_action` carries `state.main_arm` =
elements 0..4, `state.main_gripper` = element 5, `state.cv_arm` = elements
6..10 and `state.cv_gripper` = element 11, each under a batch dimension of
size one (the float64 cast is value-preserving in the rational model). -/
theorem custom_get_action_state_slices {Image : Type} (li : String)
    (imgs : CamImages Image) (s : List Val) (h : s.length = 12) :
    (customGetActionObs li imgs s).state_main_arm =
      [[s.get ⟨0, by omega⟩, s.get ⟨1, by omega⟩, s.get ⟨2, by omega⟩,
        s.get ⟨3, by omega⟩, s.get ⟨4, by omega⟩]] ∧
    (customGetActionObs li imgs s).state_main_gripper = [[s.get ⟨5, by omega⟩]] ∧
    (customGetActionObs li imgs s).state_cv_arm =
      [[s.get ⟨6, by omega⟩, s.get ⟨7, by omega⟩, s.get ⟨8, by omega⟩,
        s.get ⟨9, by omega⟩, s.get ⟨10, by omega⟩]] ∧
    (customGetActionObs li imgs s).state_cv_gripper = [[s.get ⟨11, by omega⟩]] ∧
    (customGetActionObs li imgs s).state_main_arm.length = 1 ∧
    (customGetActionObs li imgs s).state_main_gripper.length = 1 ∧
    (customGetActionObs li imgs s).state_cv_arm.length = 1 ∧
    (customGetActionObs li imgs s).state_cv_gripper.length = 1 := by
  obtain ⟨b0, s, rfl⟩ := exists_cons_of_length_pos s (by omega)
  simp only [List.length_cons] at h
  obtain ⟨b1, s, rfl⟩ := exists_cons_of_length_pos s (by omega)
  simp only [List.length_cons] at h
  obtain ⟨b2, s, rfl⟩ := exists_cons_of_length_pos s (by omega)
  simp only [List.length_cons] at h
  obtain ⟨b3, s, rfl⟩ := exists_cons_of_length_pos s (by omega)
  simp only [List.length_cons] at h
  obtain ⟨b4, s, rfl⟩ := exists_cons_of_length_pos s (by omega)
  simp only [List.length_cons] at h
  obtain ⟨b5, s, rfl⟩ := exists_cons_of_length_pos s (by omega)
  simp only [List.length_cons] at h
  obtain ⟨b6, s, rfl⟩ := exists_cons_of_length_pos s (by omega)
  simp only [List.length_cons] at h
  obtain ⟨b7, s, rfl⟩ := exists_cons_of_length_pos s (by omega)
  simp only [List.length_cons] at h
  obtain ⟨b8, s, rfl⟩ := exists_cons_of_length_pos s (by omega)
  simp only [List.length_cons] at h
  obtain ⟨b9, s, rfl⟩ := exists_cons_of_length_pos s (by omega)
  simp only [List.length_cons] at h
  obtain ⟨b10, s, rfl⟩ := exists_cons_of_length_pos s (by omega)
  simp only [List.length_cons] at h
  obtain ⟨b11, s, rfl⟩ := exists_cons_of_length_pos s (by omega)
  simp only [List.length_cons] at h
  obtain rfl : s = [] := List.length_eq_zero.mp (by omega)
  refine ⟨rfl, rfl, rfl, rfl, rfl, rfl, rfl, rfl⟩

/-- A sample language instruction (the one hard-coded in `__main__`). -/
def sampleInstruction : String := "Grasp items from white bowl and place in black tray"

/-- Placeholder camera frames for witnesses. -/
def sampleCamImages : CamImages Unit := ⟨(), (), ()⟩

/-- A sample 12-element state vector. -/
def sampleState : List Val := [0, 1, 2, 3, 4, 5, 6, 7, 8, 9, 10, 11]

/-- Witness for C2 at a concrete 12-element state. -/
theorem custom_get_action_state_slices_witness :
    (customGetActionObs sampleInstruction sampleCamImages sampleState).state_cv_gripper =
      [[sampleState.get ⟨11, by decide⟩]] :=
  (custom_get_action_state_slices sampleInstruction sampleCamImages sampleState
    (by decide)).2.2.2.1

/-- C4: `enable_camera=False` empties the camera configuration before the
robot object is built, so the constructed robot has no camera devices and
`get_all_camera_images` returns the empty dictionary; with
`enable_camera=True` the configured cameras are kept on both the config and
the robot. -/
theorem enable_camera_controls_cameras (calibration_path : String)
    (default_cameras : List String)
    (followers leaders : List (String × List String)) (obs : String → Img) :
    (SO100Robot.init false calibration_path default_cameras followers
      leaders).config.cameras = [] ∧
    (SO100Robot.init false calibration_path default_cameras followers
      leaders).robot.cameras = [] ∧
    (SO100Robot.init false calibration_path default_cameras followers
      leaders).get_all_camera_images obs = [] ∧
    (SO100Robot.init true calibration_path default_cameras followers
      leaders).config.cameras = default_cameras ∧
    (SO100Robot.init true calibration_path default_cameras followers
      leaders).robot.cameras = default_cameras := by
  refine ⟨rfl, rfl, rfl, rfl, rfl⟩

/-- The motor index map has one entry per follower arm. -/
theorem buildMotorIndices_length (arms : List (String × List String)) (s : Nat) :
    (buildMotorIndices arms s).length = arms.length := by
  induction arms generalizing s with
  | nil => rfl
  | cons a rest ih =>
      obtain ⟨arm_name, motor_names⟩ := a
      simp [buildMotorIndices, ih]

/-- The first entry of the motor index map starts at the running index. -/
theorem buildMotorIndices_head_start (arms : List (String × List String))
    (s : Nat) (h : 0 < (buildMotorIndices arms s).length) :
    ((buildMotorIndices arms s).get ⟨0, h⟩).2.start = s := by
  cases arms with
  | nil => simp [buildMotorIndices] at h
  | cons a rest =>
      obtain ⟨arm_name, motor_names⟩ := a
      rfl

/-- Every entry's stop index is its start index plus its motor count. -/
theorem buildMotorIndices_stop (arms : List (String × List String))
    (s i : Nat) (h : i < (buildMotorIndices arms s).length) :
    ((buildMotorIndices arms s).get ⟨i, h⟩).2.stop =
      ((buildMotorIndices arms s).get ⟨i, h⟩).2.start +
        ((buildMotorIndices arms s).get ⟨i, h⟩).2.motor_names.length := by
  induction arms generalizing s i with
  | nil => simp [buildMotorIndices] at h
  | cons a rest ih =>
      obtain ⟨arm_name, motor_names⟩ := a
      cases i with
      | zero => rfl
      | succ j =>
          have h' : j < (buildMotorIndices rest (s + motor_names.length)).length := by
            rw [buildMotorIndices_length] at h ⊢
            simp only [List.length_cons] at h
            omega
          exact ih (s + motor_names.length) j h'

/-- Each entry of the motor index map begins where the previous one stops. -/
theorem buildMotorIndices_adjacent (arms : List (String × List String))
    (s i : Nat) (h : i + 1 < (buildMotorIndices arms s).length) :
    ((buildMotorIndices arms s).get ⟨i + 1, h⟩).2.start =
      ((buildMotorIndices arms s).get ⟨i, by omega⟩).2.stop := by
  induction arms generalizing s i with
  | nil => simp [buildMotorIndices] at h
  | cons a rest ih =>
      obtain ⟨arm_name, motor_names⟩ := a
      cases i with
      | zero =>
          have h' : 0 < (buildMotorIndices rest (s + motor_names.length)).length := by
            rw [buildMotorIndices_length] at h ⊢
            simp only [List.length_cons] at h
            omega
          exact buildMotorIndices_head_start rest (s + motor_names.length) h'
      | succ j =>
          have h' : j + 1 < (buildMotorIndices rest (s + motor_names.length)).length := by
            rw [buildMotorIndices_length] at h ⊢
            simp only [List.length_cons] at h
            omega
          exact ih (s + motor_names.length) j h'

/-- C10: after `SO100Robot.__init__`, the `motor_indices` map partitions motor
indices contiguously and disjointly: the first entry starts at 0, every
entry's stop equals its start plus its motor count, and every entry after the
first starts where its predecessor stops. -/
theorem motor_indices_partition (enable_camera : Bool) (calibration_path : String)
    (default_cameras : List String)
    (followers leaders : List (String × List String)) :
    (∀ h : 0 < (SO100Robot.init enable_camera calibration_path default_cameras
        followers leaders).motor_indices.length,
      ((SO100Robot.init enable_camera calibration_path default_cameras
        followers leaders).motor_indices.get ⟨0, h⟩).2.start = 0) ∧
    (∀ i (h : i < (SO100Robot.init enable_camera calibration_path default_cameras
        followers leaders).motor_indices.length),
      ((SO100Robot.init enable_camera calibration_path default_cameras
        followers leaders).motor_indices.get ⟨i, h⟩).2.stop =
        ((SO100Robot.init enable_camera calibration_path default_cameras
          followers leaders).motor_indices.get ⟨i, h⟩).2.start +
          ((SO100Robot.init enable_camera calibration_path default_cameras
            followers leaders).motor_indices.get ⟨i, h⟩).2.motor_names.length) ∧
    (∀ i (h : i + 1 < (SO100Robot.init enable_camera calibration_path
        default_cameras followers leaders).motor_indices.length),
      ((SO100Robot.init enable_camera calibration_path default_cameras
        followers leaders).motor_indices.get ⟨i + 1, h⟩).2.start =
        ((SO100Robot.init enable_camera calibration_path default_cameras
          followers leaders).motor_indices.get ⟨i, by omega⟩).2.stop) := by
  refine ⟨?_, ?_, ?_⟩
  · intro h
    exact buildMotorIndices_head_start followers 0 h
  · intro i h
    exact buildMotorIndices_stop followers 0 i h
  · intro i h
    exact buildMotorIndices_adjacent followers 0 i h

/-- The SO100 follower arms of this deployment: the `main` and `cv` arms, six
motors each. -/
def sampleFollowers : List (String × List String) :=
  [("main", ["shoulder_pan", "shoulder_lift", "elbow_flex", "wrist_flex",
             "wrist_roll", "gripper"]),
   ("cv", ["shoulder_pan", "shoulder_lift", "elbow_flex", "wrist_flex",
           "wrist_roll", "gripper"])]

/-- The calibration directory hard-coded in `SO100Robot.__init__`. -/
def sampleCalibrationPath : String :=
  "/home/jasonx/Dropbox/repos/apple_pie/lerobot/.cache/calibration/so100"

/-- Sample camera map of the stock configuration. -/
def sampleCameras : List String := ["webcam", "main", "cv"]

/-- Witness for C10 on a concrete two-arm robot: the second arm starts where
the first stops. -/
theorem motor_indices_partition_witness :
    ((SO100Robot.init true sampleCalibrationPath sampleCameras sampleFollowers
      []).motor_indices.get ⟨1, by decide⟩).2.start =
      ((SO100Robot.init true sampleCalibrationPath sampleCameras sampleFollowers
        []).motor_indices.get ⟨0, by decide⟩).2.stop :=
  (motor_indices_partition true sampleCalibrationPath sampleCameras
    sampleFollowers []).2.2 0 (by decide)

/-- C8: calling `SO100Robot.connect` while the underlying robot is already
connected raises `RobotDeviceAlreadyConnectedError` and performs no bus
effects; otherwise it connects the bus, applies the preset writes to every
follower arm, and sets `is_connected` to true. -/
theorem connect_spec (r : SO100Robot) :
    (r.robot.is_connected = true →
      r.connect = (Except.error RobotError.deviceAlreadyConnected, [])) ∧
    (r.robot.is_connected = false →
      ∃ r', r.connect =
        (Except.ok r',
         WriteEv.busConnect ::
           (r.follower_arms.map
             (fun a => set_so100_robot_preset a.1 ++ [WriteEv.readPresent a.1])).flatten) ∧
        r'.robot.is_connected = true ∧
        (∀ a ∈ r.follower_arms, ∀ w ∈ set_so100_robot_preset a.1,
          w ∈ r.connect.2)) := by
  constructor
  · intro hc
    simp [SO100Robot.connect, hc]
  · intro hc
    refine ⟨{ r with robot := { r.robot with is_connected := true } },
      by simp [SO100Robot.connect, hc], rfl, ?_⟩
    intro a ha w hw
    simp only [SO100Robot.connect, hc, Bool.false_eq_true, if_false,
      List.mem_cons, List.mem_flatten, List.mem_map]
    exact Or.inr ⟨set_so100_robot_preset a.1 ++ [WriteEv.readPresent a.1],
      ⟨a, ha, rfl⟩, List.mem_append_left _ hw⟩

/-- A freshly initialized (disconnected) robot used by the witnesses. -/
def sampleRobot : SO100Robot :=
  SO100Robot.init true sampleCalibrationPath sampleCameras sampleFollowers []

/-- Witness for C8: connecting the freshly built (disconnected) sample robot
succeeds, flips the flag, and writes every preset register of both arms. -/
theorem connect_spec_witness :
    ∃ r', sampleRobot.connect =
      (Except.ok r',
       WriteEv.busConnect ::
         (sampleRobot.follower_arms.map
           (fun a => set_so100_robot_preset a.1 ++ [WriteEv.readPresent a.1])).flatten) ∧
      r'.robot.is_connected = true ∧
      (∀ a ∈ sampleRobot.follower_arms, ∀ w ∈ set_so100_robot_preset a.1,
        w ∈ sampleRobot.connect.2) :=
  (connect_spec sampleRobot).2 rfl

/-- C9: `SO100Robot.disconnect` always returns normally (every exception from
the guarded body is caught), does nothing when the robot is not connected, is
idempotent, and the `activate` context manager always ends with a
`disconnect` call, whether or not its body raises. -/
theorem disconnect_safe (inner : SO100Robot → Except RobotError SO100Robot)
    (r : SO100Robot) :
    (∃ r', SO100Robot.disconnect inner r = Except.ok r') ∧
    (r.robot.is_connected = false → SO100Robot.disconnect inner r = Except.ok r) ∧
    (∀ r₁, SO100Robot.disconnect inner r = Except.ok r₁ →
      SO100Robot.disconnect inner r₁ = Except.ok r₁) ∧
    (∀ connect_ok move_ok body_ok : Bool,
      (activateCalls connect_ok move_ok body_ok).getLast? =
        some ActivateCall.disconnectCall) := by
  refine ⟨?_, ?_, ?_, by decide⟩
  · by_cases hc : r.robot.is_connected
    · cases hi : inner r with
      | ok r' =>
          refine ⟨{ r' with robot := { r'.robot with is_connected := false } }, ?_⟩
          simp [SO100Robot.disconnect, hc, hi]
      | error e => exact ⟨r, by simp [SO100Robot.disconnect, hc, hi]⟩
    · exact ⟨r, by simp [SO100Robot.disconnect, hc]⟩
  · intro hc
    simp [SO100Robot.disconnect, hc]
  · intro r₁ h₁
    by_cases hc : r.robot.is_connected
    · cases hi : inner r with
      | ok r' =>
          simp only [SO100Robot.disconnect, hc, if_true, hi] at h₁
          cases h₁
          simp [SO100Robot.disconnect]
      | error e =>
          simp only [SO100Robot.disconnect, hc, if_true, hi] at h₁
          cases h₁
          simp [SO100Robot.disconnect, hc, hi]
    · simp only [SO100Robot.disconnect, hc, if_false] at h₁
      cases h₁
      simp [SO100Robot.disconnect, hc]

/-- Witness for C9: disconnecting the (not yet connected) sample robot under a
benign inner disconnection is a no-op that returns normally. -/
theorem disconnect_safe_witness :
    SO100Robot.disconnect Except.ok sampleRobot = Except.ok sampleRobot :=
  (disconnect_safe Except.ok sampleRobot).2.1 rfl

/-- Element `6*m + r` of `m`-fold-unrolled inner loop is element `r` of one
inner step, for `m` below the horizon and `r` below the step length. -/
theorem innerTrace_get (h m r : Nat) (hm : m < h) (hr : r < 6) :
    (innerTrace h)[6 * m + r]? = innerStepTrace[r]? := by
  induction h generalizing m with
  | zero => omega
  | succ n ih =>
      cases m with
      | zero =>
          simp only [innerTrace, Nat.mul_zero, Nat.zero_add]
          exact List.getElem?_append_left hr
      | succ k =>
          have hlen : innerStepTrace.length = 6 := rfl
          have h6 : innerStepTrace.length ≤ 6 * (k + 1) + r := by
            rw [hlen]; omega
          rw [innerTrace, List.getElem?_append_right h6, hlen]
          have harith : 6 * (k + 1) + r - 6 = 6 * k + r := by omega
          rw [harith]
          exact ih k (by omega)

/-- Element `4 + (6*m + r)` of one main-loop iteration is element `r` of the
`m`-th inner step. -/
theorem mainIterTrace_get_inner (h m r : Nat) (hm : m < h) (hr : r < 6) :
    (mainIterTrace h)[4 + (6 * m + r)]? = innerStepTrace[r]? := by
  have hlen : ([Ev.readImages, Ev.display, Ev.readState,
      Ev.requestAction] : List Ev).length ≤ 4 + (6 * m + r) := by
    simp
  rw [mainIterTrace, List.getElem?_append_right hlen]
  have harith : 4 + (6 * m + r) - ([Ev.readImages, Ev.display, Ev.readState,
      Ev.requestAction] : List Ev).length = 6 * m + r := by simp
  rw [harith]
  exact innerTrace_get h m r hm hr

/-- C5: inside one main-loop iteration with action horizon `h`, consecutive
actuator commands (the `m`-th and `(m+1)`-th sends, at trace positions
`4 + 6m` and `4 + 6(m+1)`) are separated by exactly one sleep, the fixed
`time.sleep(0.01)` right after the send; no other send and no other sleep
occurs between them, and the trace alphabet is purely sequential (reads,
displays, logs). -/
theorem inner_loop_sleep_pacing (h m : Nat) (hm : m + 1 < h) :
    (mainIterTrace h)[4 + 6 * m]? = some Ev.sendAction ∧
    (mainIterTrace h)[4 + 6 * (m + 1)]? = some Ev.sendAction ∧
    (∀ j, 4 + 6 * m < j → j < 4 + 6 * (m + 1) →
      (mainIterTrace h)[j]? ≠ some Ev.sendAction) ∧
    (mainIterTrace h)[4 + 6 * m + 1]? = some (Ev.sleepFor 0.01) ∧
    (∀ j q, 4 + 6 * m < j → j < 4 + 6 * (m + 1) →
      (mainIterTrace h)[j]? = some (Ev.sleepFor q) →
      j = 4 + 6 * m + 1 ∧ q = 0.01) := by
  refine ⟨?_, ?_, ?_, ?_, ?_⟩
  · have := mainIterTrace_get_inner h m 0 (by omega) (by decide)
    simpa using this
  · have := mainIterTrace_get_inner h (m + 1) 0 (by omega) (by decide)
    simpa using this
  · intro j hj1 hj2 he
    obtain ⟨r, hr1, hr5, rfl⟩ : ∃ r, 1 ≤ r ∧ r ≤ 5 ∧ j = 4 + (6 * m + r) :=
      ⟨j - (4 + 6 * m), by omega, by omega, by omega⟩
    rw [mainIterTrace_get_inner h m r (by omega) (by omega)] at he
    interval_cases r <;> simp [innerStepTrace] at he
  · have := mainIterTrace_get_inner h m 1 (by omega) (by decide)
    simpa [Nat.add_assoc] using this
  · intro j q hj1 hj2 he
    obtain ⟨r, hr1, hr5, rfl⟩ : ∃ r, 1 ≤ r ∧ r ≤ 5 ∧ j = 4 + (6 * m + r) :=
      ⟨j - (4 + 6 * m), by omega, by omega, by omega⟩
    rw [mainIterTrace_get_inner h m r (by omega) (by omega)] at he
    interval_cases r <;> simp [innerStepTrace] at he
    exact ⟨by omega, he.symm⟩

/-- Witness for C5 at horizon 12 (the script's default `action_horizon`) and
the first pair of consecutive sends. -/
theorem inner_loop_sleep_pacing_witness :
    (mainIterTrace 12)[4]? = some Ev.sendAction ∧
    (mainIterTrace 12)[10]? = some Ev.sendAction ∧
    (mainIterTrace 12)[5]? = some (Ev.sleepFor 0.01) := by
  have h := inner_loop_sleep_pacing 12 0 (by omega)
  exact ⟨by simpa using h.1, by simpa using h.2.1, by simpa using h.2.2.2.1⟩

/-- C1 counterexample: the claimed order (state read, then action request,
then send, then display/log) is violated by the actual iteration trace at
horizon 12 (the script's default): the camera frames are displayed at
position 1, before the action request at position 3 (and before the first
send). -/
theorem main_loop_claimed_order_counterexample :
    ¬ claimedMainLoopOrder (mainIterTrace 12) := by
  intro hcl
  have h13 := hcl 1 3 (Or.inl (by decide)) (Or.inr (Or.inl (by decide)))
  omega

/-- C1 (amended): each iteration of the main loop first reads and displays
the camera frames, then reads the sensor state, then requests an action, and
then, for each of the `h` inner steps, sends the action to the actuators and
afterwards displays the camera frames, reads the state, and logs the joint
positions and actions; no send occurs before the action request. -/
theorem main_loop_amended_order (h : Nat) :
    (mainIterTrace h)[0]? = some Ev.readImages ∧
    (mainIterTrace h)[1]? = some Ev.display ∧
    (mainIterTrace h)[2]? = some Ev.readState ∧
    (mainIterTrace h)[3]? = some Ev.requestAction ∧
    (∀ j, j < 4 → (mainIterTrace h)[j]? ≠ some Ev.sendAction) ∧
    (∀ m, m < h →
      (mainIterTrace h)[4 + 6 * m]? = some Ev.sendAction ∧
      (mainIterTrace h)[4 + 6 * m + 3]? = some Ev.display ∧
      (mainIterTrace h)[4 + 6 * m + 4]? = some Ev.readState ∧
      (mainIterTrace h)[4 + 6 * m + 5]? = some Ev.logData) := by
  have hpre : ∀ j, j < 4 → (mainIterTrace h)[j]? =
      ([Ev.readImages, Ev.display, Ev.readState, Ev.requestAction] : List Ev)[j]? := by
    intro j hj
    rw [mainIterTrace, List.getElem?_append_left (by simpa using hj)]
  refine ⟨by rw [hpre 0 (by omega)]; rfl, by rw [hpre 1 (by omega)]; rfl,
    by rw [hpre 2 (by omega)]; rfl, by rw [hpre 3 (by omega)]; rfl, ?_, ?_⟩
  · intro j hj
    rw [hpre j hj]
    interval_cases j <;> decide
  · intro m hm
    refine ⟨?_, ?_, ?_, ?_⟩
    · simpa using mainIterTrace_get_inner h m 0 hm (by decide)
    · simpa [Nat.add_assoc] using mainIterTrace_get_inner h m 3 hm (by decide)
    · simpa [Nat.add_assoc] using mainIterTrace_get_inner h m 4 hm (by decide)
    · simpa [Nat.add_assoc] using mainIterTrace_get_inner h m 5 hm (by decide)

/-- Witness for the amended C1 at horizon 12 and the first inner step. -/
theorem main_loop_amended_order_witness :
    (mainIterTrace 12)[4]? = some Ev.sendAction ∧
    (mainIterTrace 12)[7]? = some Ev.display := by
  have h := (main_loop_amended_order 12).2.2.2.2.2 0 (by omega)
  exact ⟨by simpa using h.1, by simpa using h.2.1⟩
